import Mathlib

/-!
Verification development for the AI news trend agent (`app.py`).

The program is a single-file dashboard: `guardian_search` fetches articles
from a news API, `generate_analysis` (wrapped in a result cache) turns the
current and previous article lists into a summary string and a trend-change
string via two model calls, and `run_agent` iterates over keywords and
rotates each keyword record `current` into `previous` in the report store.

The shallow embedding below renders the external world (HTTP fetches, model
calls, the clock) as explicit oracle parameters; user-visible status
messages (`st.info`, `st.warning`, `st.error`, `st.success`) become an
explicit message log.  UI-only context managers (`st.spinner`,
`st.set_page_config`) have no observable effect on the store or the log and
are not modelled.
-/

set_option maxRecDepth 4000

namespace NewsAgent

/-- Severity of a user-visible status message (`st.info` / `st.warning` /
`st.error` / `st.success`). -/
inductive MsgLevel where
  | info
  | warning
  | error
  | success
deriving DecidableEq

/-- A user-visible status message emitted while running. -/
structure Msg where
  level : MsgLevel
  text : String
deriving DecidableEq

/-- The nested `fields` object of a Guardian article; `trailText` may be
absent (`dict.get` with a default in the source). -/
structure ArticleFields where
  trailText : Option String
deriving DecidableEq

/-- One article record as used by `app.py`: every field is read with
`dict.get` and may be absent. -/
structure Article where
  webTitle : Option String
  webPublicationDate : Option String
  webUrl : Option String
  fields : Option ArticleFields
deriving DecidableEq

/-- Python truthiness of an optional article list: `None` and `[]` are
falsy, a non-empty list is truthy (`if previous_articles:` in the source). -/
def pyTruthy : Option (List Article) → Bool
  | some (_ :: _) => true
  | _ => false

/-- Python `x if x else []` applied to an optional article list
(line 138 of `app.py`). -/
def pyOrElseNil : Option (List Article) → List Article
  | some (a :: rest) => a :: rest
  | _ => []

/-- One line of the digest of a current article (`app.py` line 53):
title, first 10 characters of the date string, teaser; every missing field
defaults to the empty string. -/
def digestLine (a : Article) : String :=
  "- " ++ a.webTitle.getD "" ++ " (" ++ (a.webPublicationDate.getD "").take 10 ++ ") - " ++
    ((a.fields.getD { trailText := none }).trailText.getD "")

/-- The flattened digest of the current articles (`app.py` lines 52-55):
one digest line per article, joined by newlines. -/
def article_texts (articles : List Article) : String :=
  String.intercalate "\n" (articles.map (fun a =>
    "- " ++ a.webTitle.getD "" ++ " (" ++ (a.webPublicationDate.getD "").take 10 ++ ") - " ++
      ((a.fields.getD { trailText := none }).trailText.getD "")))

/-- The title-only digest of the previous articles (`app.py` lines 72-74). -/
def previous_article_texts (previous_articles : List Article) : String :=
  String.intercalate "\n" (previous_articles.map (fun a => "- " ++ a.webTitle.getD ""))

/-- The summary prompt (`app.py` lines 58-66). -/
def summary_prompt (keyword : String) (articles : List Article) : String :=
  "\n    The following is a list of recent news articles for the keyword \x27" ++ keyword ++
  "\x27.\n    Based on these articles, write a **one-page summary report** on the overall media trend in **English**.\n    (Include the general sentiment, key issues, and major related figures/companies. Format cleanly using Markdown.)\n    ---\n    Article List:\n    " ++
  article_texts articles ++ "\n    ---\n    "

/-- The trend-comparison prompt (`app.py` lines 75-89). -/
def comparison_prompt (keyword : String) (articles previous_articles : List Article) : String :=
  "\n        Compare the previous list of articles with the latest list for the keyword \x27" ++
  keyword ++
  "\x27 and analyze the **key shifts in media trends**.\n        Please structure the result using the following format:\n        ## Major Trend Change Analysis\n        ### 1. Key Shifts Summary\n        [Analysis content]\n        ### 2. Newly Emerging or Rising Issues\n        * [Issue 1]\n        * [Issue 2]\n        ### 3. Issues Decreasing in Importance\n        * [Issue 1]\n        \n        * Previous Article List: " ++
  previous_article_texts previous_articles ++
  "\n        * Latest Article List: " ++ article_texts articles ++ "\n        "

/-- The fixed sentence used for `trend_change` when no previous data exists
(`app.py` line 69). -/
def noDataSentence : String := "No previous search data available to compare trend changes."

/-- The fixed placeholder substituted when the summary model call fails
(`app.py` line 110). -/
def summaryFailSentence : String := "Failed to generate the summary report."

/-- A model-call oracle: each chat-completion request is a prompt string and
either returns the completion text or raises with an error message. -/
abbrev LLM := String → Except String String

/-- The observable outcome of one `generate_analysis` call: the returned
`(current_summary, trend_change_text)` pair, the error messages shown, and
the prompts actually sent to the model, in order. -/
structure GenResult where
  current_summary : String
  trend_change : String
  msgs : List Msg
  calls : List String
deriving DecidableEq

/-- Shallow embedding of `generate_analysis` (`app.py` lines 48-112), with
the model as an explicit oracle.  `trend_change_text` starts as the fixed
no-data sentence; only a truthy `previous_articles` triggers the trend model
call, whose failure is caught and leaves `trend_change_text` at its prior
value; the summary model call always happens, and its failure is caught and
replaced by the fixed summary failure placeholder. -/
def generate_analysis (llm : LLM) (keyword : String) (articles : List Article)
    (previous_articles : Option (List Article)) : GenResult :=
  let sPrompt := summary_prompt keyword articles
  let trendPart : String × List Msg × List String :=
    match previous_articles with
    | some (a :: rest) =>
      let cPrompt := comparison_prompt keyword articles (a :: rest)
      match llm cPrompt with
      | .ok t => (t, [], [cPrompt])
      | .error e =>
        (noDataSentence, [⟨.error, "OpenAI Trend Analysis Error: " ++ e⟩], [cPrompt])
    | _ => (noDataSentence, [], [])
  let summaryPart : String × List Msg :=
    match llm sPrompt with
    | .ok s => (s, [])
    | .error e =>
      (summaryFailSentence, [⟨.error, "OpenAI Summary Report Generation Error: " ++ e⟩])
  { current_summary := summaryPart.1
    trend_change := trendPart.1
    msgs := trendPart.2.1 ++ summaryPart.2
    calls := trendPart.2.2 ++ [sPrompt] }

/-- The cache key of the `st.cache_data` wrapper around `generate_analysis`:
the full argument tuple, compared by value. -/
abbrev GenKey := String × List Article × Option (List Article)

/-- The state of the `st.cache_data` result cache. -/
structure GenCache where
  entries : List (GenKey × (String × String))

/-- Shallow embedding of the `@st.cache_data` wrapper (`app.py` line 47):
a hit returns the stored `(summary, trend)` pair with no model call; a miss
runs `generate_analysis` and stores its value. -/
def generate_analysis_cached (llm : LLM) (cache : GenCache) (keyword : String)
    (articles : List Article) (previous_articles : Option (List Article)) :
    (String × String) × GenCache × List String :=
  match cache.entries.find? (fun e => decide (e.1 = (keyword, articles, previous_articles))) with
  | some e => (e.2, cache, [])
  | none =>
    let r := generate_analysis llm keyword articles previous_articles
    ((r.current_summary, r.trend_change),
      ⟨((keyword, articles, previous_articles), (r.current_summary, r.trend_change)) ::
        cache.entries⟩,
      r.calls)

/-- The outcome of one Guardian fetch for a keyword, at the article level:
either some exception was raised during the request, status check, or parse
(`.fail` with its message), or a well-formed article list came back. -/
inductive FetchResult where
  | fail (msg : String)
  | ok (articles : List Article)

/-- The external world of one `run_agent` invocation: what each keyword
fetch does, what each model call returns, and the formatted current
timestamp (`datetime.now().strftime(...)`). -/
structure RunEnv where
  fetch : String → FetchResult
  llm : LLM
  now : String

/-- The error text shown by `guardian_search` when the API call raises
(`app.py` line 44). -/
def guardianErrorText (keyword e : String) : String :=
  "Guardian API call error while searching for \x27" ++ keyword ++ "\x27: " ++ e

/-- Shallow embedding of `guardian_search` (`app.py` lines 28-45) at the
article level: any exception is caught, reported as a user-visible error
message, and converted to the empty list. -/
def guardian_search (env : RunEnv) (keyword : String) : List Article × List Msg :=
  match env.fetch keyword with
  | .fail e => ([], [⟨.error, guardianErrorText keyword e⟩])
  | .ok articles => (articles, [])

/-- The article list `guardian_search` hands to the orchestrator. -/
def fetchedArticles (env : RunEnv) (keyword : String) : List Article :=
  (guardian_search env keyword).1

/-- One stored keyword report (`app.py` lines 136-142): the five fields the
orchestrator writes. -/
structure KeywordReport where
  current : List Article
  previous : List Article
  current_summary : String
  trend_change : String
  last_updated : String
deriving DecidableEq

/-- The report store: keyword to keyword report, absent keys mapped to
`none` (`st.session_state.reports`). -/
abbrev Store := String → Option KeywordReport

/-- The warning shown when a keyword fetch yields no articles
(`app.py` line 125). -/
def noArticlesWarning (keyword : String) : Msg :=
  ⟨.warning, "Could not find recent articles for keyword \x27" ++ keyword ++ "\x27."⟩

/-- The record `run_agent` builds for a keyword with a non-empty fetch
(`app.py` lines 128-142): previous data is read from the pre-run store,
the model analysis is run, `current` becomes the fetched list and
`previous` becomes the prior `current` (or `[]` when falsy). -/
def recordFor (env : RunEnv) (store : Store) (keyword : String) : KeywordReport :=
  let articles := fetchedArticles env keyword
  let previous_articles := (store keyword).map KeywordReport.current
  let g := generate_analysis env.llm keyword articles previous_articles
  { current := articles
    previous := pyOrElseNil previous_articles
    current_summary := g.current_summary
    trend_change := g.trend_change
    last_updated := env.now }

/-- The batch of new records built during a run before the final merge. -/
abbrev NewReports := String → Option KeywordReport

/-- One iteration of the `run_agent` loop (`app.py` lines 120-142) acting on
the accumulated `(new_reports, message log)`: an empty fetch emits a warning
and skips the keyword; otherwise the keyword record is rebuilt from the
pre-run store and added to the batch. -/
def runStep (env : RunEnv) (store : Store) (acc : NewReports × List Msg) (keyword : String) :
    NewReports × List Msg :=
  if (fetchedArticles env keyword).isEmpty then
    (acc.1, acc.2 ++ (guardian_search env keyword).2 ++ [noArticlesWarning keyword])
  else
    (fun j => if j = keyword then some (recordFor env store keyword) else acc.1 j,
      acc.2 ++ (guardian_search env keyword).2 ++
        (generate_analysis env.llm keyword (fetchedArticles env keyword)
          ((store keyword).map KeywordReport.current)).msgs)

/-- The loop accumulator at the start of a run: an empty batch and the
initial `st.info` message (`app.py` lines 117-118). -/
def runInit : NewReports × List Msg :=
  (fun _ => none,
    [⟨.info, "Searching for new data and generating analysis reports. Please wait..."⟩])

/-- Shallow embedding of `run_agent` (`app.py` lines 114-146): iterate over
the keywords building `new_reports`, reading previous data from the pre-run
store throughout, then merge the batch into the store in one
`dict.update` at the end. -/
def run_agent (env : RunEnv) (keywords : List String) (store : Store) : Store × List Msg :=
  let result := keywords.foldl (runStep env store) runInit
  ((fun k => match result.1 k with
    | some r => some r
    | none => store k),
    result.2 ++ [⟨.success, "Data search and analysis completed!"⟩])

/-- The stores reachable by the program: the store starts empty and is
mutated only by `run_agent`. -/
inductive Reachable : Store → Prop where
  | empty : Reachable (fun _ => none)
  | step (env : RunEnv) (keywords : List String) (store : Store) :
      Reachable store → Reachable (run_agent env keywords store).1

/-! JSON-level model of `guardian_search`.  The article-level
`guardian_search` above assumes the envelope parses into article records;
the claims about malformed envelopes need the raw `dict.get` chain on
arbitrary parsed JSON, modelled here. -/

/-- A parsed JSON value as produced by `response.json()`. -/
inductive Json where
  | null
  | bool (b : Bool)
  | num (n : Int)
  | str (s : String)
  | arr (elems : List Json)
  | obj (members : List (String × Json))

/-- Whether a JSON value is an array. -/
def Json.isArr : Json → Bool
  | .arr _ => true
  | _ => false

/-- Whether a JSON value is an object (a Python dict). -/
def Json.isObj : Json → Bool
  | .obj _ => true
  | _ => false

/-- Python `d.get(key, default)`: on a dict, the first binding of `key` or
the default; on any other value, an `AttributeError` is raised. -/
def dictGet : Json → String → Json → Except String Json
  | .obj members, key, dflt =>
    .ok (match members.find? (fun m => decide (m.1 = key)) with
      | some m => m.2
      | none => dflt)
  | _, _, _ => .error "AttributeError"

/-- The outcome of the HTTP layer of one `guardian_search` call: either
`requests.get`, `raise_for_status`, or `.json()` raised, or a parsed JSON
value came back. -/
inductive HttpOutcome where
  | raised (msg : String)
  | ok (data : Json)

/-- Shallow embedding of `guardian_search` (`app.py` lines 28-45) at the
JSON level: `data.get("response", \x7b\x7d).get("results", [])` runs inside
the `try`, so an exception at any stage (including `AttributeError` from a
non-dict) is caught, reported, and converted to the empty list; the
`results` value itself is returned as-is. -/
def guardian_search_json (keyword : String) (outcome : HttpOutcome) : Json × List Msg :=
  match outcome with
  | .raised e => (.arr [], [⟨.error, guardianErrorText keyword e⟩])
  | .ok data =>
    match dictGet data "response" (.obj []) with
    | .error e => (.arr [], [⟨.error, guardianErrorText keyword e⟩])
    | .ok resp =>
      match dictGet resp "results" (.arr []) with
      | .error e => (.arr [], [⟨.error, guardianErrorText keyword e⟩])
      | .ok results => (results, [])

/-! Concrete inputs used by the witnesses. -/

/-- A concrete fully-populated article. -/
def a0 : Article :=
  { webTitle := some "Quantum leap"
    webPublicationDate := some "2025-01-02T03:04:05Z"
    webUrl := some "https://example.org/a0"
    fields := some { trailText := some "teaser" } }

/-- A second concrete article. -/
def a1 : Article :=
  { webTitle := some "Older story"
    webPublicationDate := some "2024-12-31T00:00:00Z"
    webUrl := some "https://example.org/a1"
    fields := some { trailText := some "old teaser" } }

/-- A model oracle that always succeeds with a fixed completion. -/
def llm0 : LLM := fun _ => .ok "MODEL-TEXT"

/-- A model oracle that always raises. -/
def llmFail : LLM := fun _ => .error "boom"

/-- A concrete run environment: the keyword `ai` fetches one article, every
other keyword hits an HTTP error. -/
def env0 : RunEnv :=
  { fetch := fun k => if k = "ai" then .ok [a0] else .fail "http 500"
    llm := llm0
    now := "2025-01-02 03:04:05" }

/-- The empty report store. -/
def emptyStore : Store := fun _ => none

/-- A concrete pre-existing keyword report. -/
def r0 : KeywordReport :=
  { current := [a1]
    previous := []
    current_summary := "old summary"
    trend_change := "old trend"
    last_updated := "2025-01-01 00:00:00" }

/-- A concrete store holding one report under the keyword `ai`. -/
def store0 : Store := fun k => if k = "ai" then some r0 else none

/-! Theorems -/

/-- C6: the digest of the current articles is one line per article — the
digest equals the newline-join of `digestLine`, there are exactly as many
lines as articles, each line carries the title, the first 10 characters of
the date string, and the teaser, and a record with every field missing
yields empty strings in place of each field rather than a failure. -/
theorem digest_one_line_per_article (articles : List Article) :
    article_texts articles = String.intercalate "\n" (articles.map digestLine)
  ∧ (articles.map digestLine).length = articles.length
  ∧ digestLine { webTitle := none, webPublicationDate := none, webUrl := none, fields := none }
      = "-  () - "
  ∧ digestLine a0 = "- Quantum leap (2025-01-02) - teaser" :=
  ⟨rfl, by simp, rfl, rfl⟩

/-- C3: when the previous-articles argument is absent or the empty list,
the returned trend change is the fixed no-prior-data sentence and the only
model invocation issued is the summary prompt — no trend model call
occurs. -/
theorem no_previous_gives_fixed_trend (llm : LLM) (keyword : String) (articles : List Article)
    (previous_articles : Option (List Article))
    (h : previous_articles = none ∨ previous_articles = some []) :
    (generate_analysis llm keyword articles previous_articles).trend_change = noDataSentence
  ∧ (generate_analysis llm keyword articles previous_articles).calls
      = [summary_prompt keyword articles] := by
  rcases h with h | h <;> subst h <;> exact ⟨rfl, rfl⟩

/-- Witness for C3 at a concrete input. -/
theorem no_previous_gives_fixed_trend_witness :
    (generate_analysis llm0 "k" [a0] none).trend_change = noDataSentence
  ∧ (generate_analysis llm0 "k" [a0] none).calls = [summary_prompt "k" [a0]] :=
  no_previous_gives_fixed_trend llm0 "k" [a0] none (Or.inl rfl)

/-- C4 counterexample: with previous articles present and the trend model
call failing, the returned trend change is exactly the fixed no-prior-data
sentence — the same string returned when no previous data exists at all —
so the failing output is not replaced by a failure placeholder specific to
that output. -/
theorem trend_failure_reuses_no_data_sentence :
    (generate_analysis llmFail "k" [a0] (some [a0])).trend_change = noDataSentence
  ∧ (generate_analysis llmFail "k" [a0] (some [a0])).trend_change
      = (generate_analysis llmFail "k" [a0] none).trend_change :=
  ⟨rfl, rfl⟩

/-- C4 (amended): each output of the generator is fully determined by its
own model invocation, so a failure of either invocation is caught inside
the function and leaves the other output unaffected; a failed summary call
yields the fixed summary failure placeholder, while a failed trend call
falls back to the fixed no-prior-data sentence. -/
theorem generation_failures_isolated (llm : LLM) (keyword : String) (articles : List Article)
    (previous_articles : Option (List Article)) :
    (generate_analysis llm keyword articles previous_articles).current_summary
      = (match llm (summary_prompt keyword articles) with
          | .ok s => s
          | .error _ => summaryFailSentence)
  ∧ (generate_analysis llm keyword articles previous_articles).trend_change
      = (match previous_articles with
          | some (a :: rest) =>
            (match llm (comparison_prompt keyword articles (a :: rest)) with
              | .ok t => t
              | .error _ => noDataSentence)
          | _ => noDataSentence) := by
  constructor
  · cases h : llm (summary_prompt keyword articles) <;> simp [generate_analysis, h]
  · rcases previous_articles with _ | (_ | ⟨a, rest⟩)
    · rfl
    · rfl
    · cases h : llm (comparison_prompt keyword articles (a :: rest)) <;>
        simp [generate_analysis, h]

/-- C7: a second call to the cached generator with the identical argument
tuple returns the same result pair, leaves the cache unchanged, and issues
no model invocation. -/
theorem cached_generator_memoizes (llm : LLM) (cache : GenCache) (keyword : String)
    (articles : List Article) (previous_articles : Option (List Article)) :
    (generate_analysis_cached llm
        (generate_analysis_cached llm cache keyword articles previous_articles).2.1
        keyword articles previous_articles).1
      = (generate_analysis_cached llm cache keyword articles previous_articles).1
  ∧ (generate_analysis_cached llm
        (generate_analysis_cached llm cache keyword articles previous_articles).2.1
        keyword articles previous_articles).2.1
      = (generate_analysis_cached llm cache keyword articles previous_articles).2.1
  ∧ (generate_analysis_cached llm
        (generate_analysis_cached llm cache keyword articles previous_articles).2.1
        keyword articles previous_articles).2.2
      = [] := by
  cases h : cache.entries.find?
      (fun e => decide (e.1 = (keyword, articles, previous_articles))) with
  | some e => refine ⟨?_, ?_, ?_⟩ <;> simp [generate_analysis_cached, h]
  | none =>
    refine ⟨?_, ?_, ?_⟩ <;>
      simp [generate_analysis_cached, h, List.find?_cons_of_pos]

/-! Orchestrator helper lemmas -/

/-- A non-empty list has `isEmpty = false`. -/
theorem isEmpty_false_of_ne_nil {α : Type} {l : List α} (h : l ≠ []) : l.isEmpty = false := by
  cases l with
  | nil => exact absurd rfl h
  | cons a t => rfl

/-- Unfolding the first component of `run_agent` at one key. -/
theorem run_agent_fst (env : RunEnv) (keywords : List String) (store : Store) (k : String) :
    (run_agent env keywords store).1 k
      = (match (keywords.foldl (runStep env store) runInit).1 k with
          | some r => some r
          | none => store k) := rfl

/-- Unfolding the message log of `run_agent`. -/
theorem run_agent_snd (env : RunEnv) (keywords : List String) (store : Store) :
    (run_agent env keywords store).2
      = (keywords.foldl (runStep env store) runInit).2
          ++ [⟨.success, "Data search and analysis completed!"⟩] := rfl

/-- A loop iteration for a different keyword does not touch the batch entry
of `k`. -/
theorem runStep_ne (env : RunEnv) (store : Store) (acc : NewReports × List Msg)
    (c k : String) (hne : k ≠ c) : (runStep env store acc c).1 k = acc.1 k := by
  cases hb : (fetchedArticles env c).isEmpty <;> simp [runStep, hb, hne]

/-- A loop iteration for a keyword whose fetch is empty leaves the whole
batch unchanged. -/
theorem runStep_skip (env : RunEnv) (store : Store) (acc : NewReports × List Msg)
    (c : String) (hb : (fetchedArticles env c).isEmpty = true) :
    (runStep env store acc c).1 = acc.1 := by
  simp [runStep, hb]

/-- A loop iteration for a keyword with a non-empty fetch stores the record
rebuilt from the pre-run store. -/
theorem runStep_writes (env : RunEnv) (store : Store) (acc : NewReports × List Msg)
    (c : String) (hb : (fetchedArticles env c).isEmpty = false) :
    (runStep env store acc c).1 c = some (recordFor env store c) := by
  simp [runStep, hb]

/-- Loop iterations only append to the message log. -/
theorem runStep_msgs_mono (env : RunEnv) (store : Store) (acc : NewReports × List Msg)
    (c : String) (m : Msg) (hm : m ∈ acc.2) : m ∈ (runStep env store acc c).2 := by
  cases hb : (fetchedArticles env c).isEmpty <;> simp [runStep, hb, hm]

/-- The loop never writes a batch entry for a keyword whose fetch is
empty. -/
theorem fold_preserves_of_empty (env : RunEnv) (store : Store) (k : String)
    (hk : (fetchedArticles env k).isEmpty = true) :
    ∀ (ks : List String) (acc : NewReports × List Msg),
      (ks.foldl (runStep env store) acc).1 k = acc.1 k := by
  intro ks
  induction ks with
  | nil => intro acc; rfl
  | cons c rest ih =>
    intro acc
    rw [List.foldl_cons, ih]
    by_cases hkc : k = c
    · subst hkc
      rw [runStep_skip env store acc k hk]
    · exact runStep_ne env store acc c k hkc

/-- The loop never writes a batch entry for a keyword outside the keyword
list. -/
theorem fold_preserves_of_notmem (env : RunEnv) (store : Store) (k : String) :
    ∀ (ks : List String) (acc : NewReports × List Msg), k ∉ ks →
      (ks.foldl (runStep env store) acc).1 k = acc.1 k := by
  intro ks
  induction ks with
  | nil => intro acc _; rfl
  | cons c rest ih =>
    intro acc hk
    rw [List.foldl_cons, ih _ (fun h => hk (List.mem_cons_of_mem c h))]
    exact runStep_ne env store acc c k
      (fun h => hk (by rw [h]; exact List.mem_cons_self c rest))

/-- After the loop, a keyword of the list whose fetch is non-empty maps to
the record rebuilt from the pre-run store. -/
theorem fold_writes (env : RunEnv) (store : Store) (k : String)
    (hb : (fetchedArticles env k).isEmpty = false) :
    ∀ (ks : List String) (acc : NewReports × List Msg),
      (k ∈ ks ∨ acc.1 k = some (recordFor env store k)) →
      (ks.foldl (runStep env store) acc).1 k = some (recordFor env store k) := by
  intro ks
  induction ks with
  | nil =>
    intro acc h
    rcases h with h | h
    · exact absurd h (List.not_mem_nil k)
    · exact h
  | cons c rest ih =>
    intro acc h
    rw [List.foldl_cons]
    apply ih
    by_cases hkc : k = c
    · subst hkc
      exact Or.inr (runStep_writes env store acc k hb)
    · rcases h with h | h
      · rcases List.mem_cons.mp h with h2 | h2
        · exact absurd h2 hkc
        · exact Or.inl h2
      · refine Or.inr ?_
        rw [runStep_ne env store acc c k hkc]
        exact h

/-- Messages already in the log survive the rest of the loop. -/
theorem fold_msgs_mono (env : RunEnv) (store : Store) :
    ∀ (ks : List String) (acc : NewReports × List Msg) (m : Msg), m ∈ acc.2 →
      m ∈ (ks.foldl (runStep env store) acc).2 := by
  intro ks
  induction ks with
  | nil => intro acc m hm; exact hm
  | cons c rest ih =>
    intro acc m hm
    rw [List.foldl_cons]
    exact ih _ m (runStep_msgs_mono env store acc c m hm)

/-- A keyword of the list whose fetch is empty gets the no-articles warning
into the log. -/
theorem fold_warning (env : RunEnv) (store : Store) (k : String)
    (hb : (fetchedArticles env k).isEmpty = true) :
    ∀ (ks : List String) (acc : NewReports × List Msg), k ∈ ks →
      noArticlesWarning k ∈ (ks.foldl (runStep env store) acc).2 := by
  intro ks
  induction ks with
  | nil => intro acc h; exact absurd h (List.not_mem_nil k)
  | cons c rest ih =>
    intro acc h
    rw [List.foldl_cons]
    by_cases hkc : k = c
    · subst hkc
      apply fold_msgs_mono
      simp [runStep, hb]
    · rcases List.mem_cons.mp h with h2 | h2
      · exact absurd h2 hkc
      · exact ih _ h2

/-- Every record the loop puts into the batch has a non-empty current
list. -/
theorem fold_current_ne_nil (env : RunEnv) (store : Store) :
    ∀ (ks : List String) (acc : NewReports × List Msg),
      (∀ j r, acc.1 j = some r → r.current ≠ []) →
      ∀ j r, (ks.foldl (runStep env store) acc).1 j = some r → r.current ≠ [] := by
  intro ks
  induction ks with
  | nil => intro acc hacc; exact hacc
  | cons c rest ih =>
    intro acc hacc
    rw [List.foldl_cons]
    apply ih
    intro j r hj
    cases hb : (fetchedArticles env c).isEmpty with
    | true =>
      rw [runStep_skip env store acc c hb] at hj
      exact hacc j r hj
    | false =>
      by_cases hjc : j = c
      · subst hjc
        rw [runStep_writes env store acc j hb] at hj
        injection hj with hr
        subst hr
        show fetchedArticles env j ≠ []
        intro hnil
        rw [hnil] at hb
        exact Bool.noConfusion hb
      · rw [runStep_ne env store acc c j hjc] at hj
        exact hacc j r hj

/-! Claim theorems about the orchestrator -/

/-- C1: re-running the orchestrator for a keyword that already has a stored
record, with a non-empty fetch, stores the rebuilt record, whose `previous`
field is the `current` field of the record before the run and whose
`current` field is the freshly fetched article list. -/
theorem rerun_rotates_current_into_previous (env : RunEnv) (keywords : List String)
    (store : Store) (k : String) (r : KeywordReport)
    (hstore : store k = some r) (hmem : k ∈ keywords)
    (hfetch : fetchedArticles env k ≠ []) :
    (run_agent env keywords store).1 k = some (recordFor env store k)
  ∧ (recordFor env store k).previous = r.current
  ∧ (recordFor env store k).current = fetchedArticles env k := by
  refine ⟨?_, ?_, rfl⟩
  · rw [run_agent_fst,
      fold_writes env store k (isEmpty_false_of_ne_nil hfetch) keywords runInit (Or.inl hmem)]
  · show pyOrElseNil ((store k).map KeywordReport.current) = r.current
    rw [hstore]
    show pyOrElseNil (some r.current) = r.current
    cases r.current with
    | nil => rfl
    | cons a t => rfl

/-- Witness for C1 at a concrete input. -/
theorem rerun_rotates_witness :
    (run_agent env0 ["ai"] store0).1 "ai" = some (recordFor env0 store0 "ai")
  ∧ (recordFor env0 store0 "ai").previous = r0.current
  ∧ (recordFor env0 store0 "ai").current = fetchedArticles env0 "ai" :=
  rerun_rotates_current_into_previous env0 ["ai"] store0 "ai" r0 rfl
    (List.mem_cons_self "ai" []) (by decide)

/-- C2: a keyword whose fetch yields zero articles is skipped, so the store
entry of that keyword — present or absent — is exactly the same after the
run. -/
theorem empty_fetch_preserves_entry (env : RunEnv) (keywords : List String) (store : Store)
    (k : String) (h : fetchedArticles env k = []) :
    (run_agent env keywords store).1 k = store k := by
  rw [run_agent_fst,
    fold_preserves_of_empty env store k (by rw [h]; rfl) keywords runInit]
  rfl

/-- Witness for C2 at a concrete input. -/
theorem empty_fetch_preserves_entry_witness :
    fetchedArticles env0 "oops" = []
  ∧ (run_agent env0 ["ai", "oops"] store0).1 "oops" = store0 "oops" :=
  ⟨rfl, empty_fetch_preserves_entry env0 ["ai", "oops"] store0 "oops" rfl⟩

/-- C5: a failing fetch is recoverable: `guardian_search` reports the error
as a user-visible message and returns the empty list; the run leaves the
store entry of that keyword unchanged, emits the no-articles warning for
it, and still writes the freshly built record of every other keyword whose
fetch returns articles — the run is not aborted. -/
theorem fetch_error_is_recoverable (env : RunEnv) (k e : String)
    (keywords : List String) (store : Store)
    (hfail : env.fetch k = .fail e) :
    guardian_search env k = ([], [⟨.error, guardianErrorText k e⟩])
  ∧ (run_agent env keywords store).1 k = store k
  ∧ (k ∈ keywords → noArticlesWarning k ∈ (run_agent env keywords store).2)
  ∧ (∀ k2, k2 ∈ keywords → fetchedArticles env k2 ≠ [] →
      (run_agent env keywords store).1 k2 = some (recordFor env store k2)) := by
  have hempty : (fetchedArticles env k).isEmpty = true := by
    simp [fetchedArticles, guardian_search, hfail]
  refine ⟨?_, ?_, ?_, ?_⟩
  · simp [guardian_search, hfail]
  · rw [run_agent_fst, fold_preserves_of_empty env store k hempty keywords runInit]
    rfl
  · intro hk
    rw [run_agent_snd]
    exact List.mem_append.mpr (Or.inl (fold_warning env store k hempty keywords runInit hk))
  · intro k2 hk2 hf2
    rw [run_agent_fst,
      fold_writes env store k2 (isEmpty_false_of_ne_nil hf2) keywords runInit (Or.inl hk2)]

/-- Witness for C5 at a concrete input. -/
theorem fetch_error_witness :
    guardian_search env0 "oops" = ([], [⟨.error, guardianErrorText "oops" "http 500"⟩])
  ∧ (run_agent env0 ["oops", "ai"] store0).1 "oops" = store0 "oops"
  ∧ noArticlesWarning "oops" ∈ (run_agent env0 ["oops", "ai"] store0).2
  ∧ (run_agent env0 ["oops", "ai"] store0).1 "ai" = some (recordFor env0 store0 "ai") :=
  ⟨(fetch_error_is_recoverable env0 "oops" "http 500" ["oops", "ai"] store0 rfl).1,
   (fetch_error_is_recoverable env0 "oops" "http 500" ["oops", "ai"] store0 rfl).2.1,
   (fetch_error_is_recoverable env0 "oops" "http 500" ["oops", "ai"] store0 rfl).2.2.1
     (by decide),
   (fetch_error_is_recoverable env0 "oops" "http 500" ["oops", "ai"] store0 rfl).2.2.2
     "ai" (by decide) (by decide)⟩

/-- C9: in every reachable store — the store starts empty and is mutated
only by `run_agent` — every stored record has a non-empty `current` article
list; the rest of the record shape (all five fields present, `previous`
always a list and never null) is enforced by the `KeywordReport` structure
every stored value carries. -/
theorem reachable_store_current_nonempty (store : Store) (hreach : Reachable store) :
    ∀ k r, store k = some r → r.current ≠ [] := by
  induction hreach with
  | empty => intro k r hk; exact Option.noConfusion hk
  | step env keywords store2 hr ih =>
    intro k r hk
    rw [run_agent_fst] at hk
    cases hfold : (keywords.foldl (runStep env store2) runInit).1 k with
    | none =>
      rw [hfold] at hk
      exact ih k r hk
    | some r2 =>
      rw [hfold] at hk
      injection hk with hr2
      subst hr2
      exact fold_current_ne_nil env store2 keywords runInit
        (fun j rr hj => Option.noConfusion hj) k r2 hfold

/-- Witness for C9 at a concrete input. -/
theorem reachable_store_witness :
    (recordFor env0 emptyStore "ai").current ≠ [] :=
  reachable_store_current_nonempty (run_agent env0 ["ai"] emptyStore).1
    (Reachable.step env0 ["ai"] emptyStore Reachable.empty) "ai"
    (recordFor env0 emptyStore "ai") rfl

/-- C10: a run merges its batch into the store at the end: entries of
keywords outside the run keyword list are unchanged, no entry is ever
deleted, and every keyword of the list with a non-empty fetch maps to a
record rebuilt from the pre-run store — so updates become visible only in
the single merge after the loop. -/
theorem run_merges_batch_without_deletion (env : RunEnv) (keywords : List String)
    (store : Store) :
    (∀ k, k ∉ keywords → (run_agent env keywords store).1 k = store k)
  ∧ (∀ k, (store k).isSome = true → ((run_agent env keywords store).1 k).isSome = true)
  ∧ (∀ k, k ∈ keywords → fetchedArticles env k ≠ [] →
      (run_agent env keywords store).1 k = some (recordFor env store k)) := by
  refine ⟨?_, ?_, ?_⟩
  · intro k hk
    rw [run_agent_fst, fold_preserves_of_notmem env store k keywords runInit hk]
    rfl
  · intro k hk
    rw [run_agent_fst]
    cases hfold : (keywords.foldl (runStep env store) runInit).1 k with
    | none => exact hk
    | some r => rfl
  · intro k hk hfetch
    rw [run_agent_fst,
      fold_writes env store k (isEmpty_false_of_ne_nil hfetch) keywords runInit (Or.inl hk)]

/-- Witness for C10 at a concrete input. -/
theorem run_merges_batch_witness :
    (run_agent env0 ["ai"] store0).1 "zzz" = store0 "zzz"
  ∧ ((run_agent env0 ["ai"] store0).1 "ai").isSome = true
  ∧ (run_agent env0 ["ai"] store0).1 "ai" = some (recordFor env0 store0 "ai") :=
  ⟨(run_merges_batch_without_deletion env0 ["ai"] store0).1 "zzz" (by decide),
   (run_merges_batch_without_deletion env0 ["ai"] store0).2.1 "ai" rfl,
   (run_merges_batch_without_deletion env0 ["ai"] store0).2.2 "ai"
     (List.mem_cons_self "ai" []) (by decide)⟩

/-! Claim theorems about the JSON-level fetch client -/

/-- Python `dict.get` raises `AttributeError` on every non-dict value. -/
theorem dictGet_not_obj {j : Json} (h : j.isObj = false) (key : String) (dflt : Json) :
    dictGet j key dflt = .error "AttributeError" := by
  cases j <;> simp_all [Json.isObj, dictGet]

/-- C8 counterexample: an envelope whose `results` field is not a list is
returned verbatim, so the client does not always return a list — here it
returns the number 5. -/
theorem guardian_returns_results_verbatim :
    (guardian_search_json "k"
        (.ok (.obj [("response", .obj [("results", .num 5)])]))).1 = .num 5
  ∧ ((guardian_search_json "k"
        (.ok (.obj [("response", .obj [("results", .num 5)])]))).1).isArr = false :=
  ⟨rfl, rfl⟩

/-- C8 (amended): the client never raises: an exception at any stage of the
request, status check, or parse yields the empty list with an error
message; a non-dict envelope or non-dict `response` value makes the
`dict.get` chain raise `AttributeError`, which the `try` catches into the
empty list; a missing `response` or `results` key yields the empty list;
and a present `results` value is returned verbatim — a list exactly when
the envelope holds a list there. -/
theorem guardian_search_json_total (keyword : String) (outcome : HttpOutcome) :
    (∀ e, outcome = .raised e →
      guardian_search_json keyword outcome
        = (.arr [], [⟨.error, guardianErrorText keyword e⟩]))
  ∧ (∀ data, outcome = .ok data → data.isObj = false →
      (guardian_search_json keyword outcome).1 = .arr [])
  ∧ (∀ members, outcome = .ok (.obj members) →
      members.find? (fun m => decide (m.1 = "response")) = none →
      (guardian_search_json keyword outcome).1 = .arr [])
  ∧ (∀ members m, outcome = .ok (.obj members) →
      members.find? (fun m2 => decide (m2.1 = "response")) = some m →
      m.2.isObj = false →
      (guardian_search_json keyword outcome).1 = .arr [])
  ∧ (∀ members rmembers m, outcome = .ok (.obj members) →
      members.find? (fun m2 => decide (m2.1 = "response")) = some m →
      m.2 = .obj rmembers →
      rmembers.find? (fun m2 => decide (m2.1 = "results")) = none →
      (guardian_search_json keyword outcome).1 = .arr [])
  ∧ (∀ members rmembers m mr, outcome = .ok (.obj members) →
      members.find? (fun m2 => decide (m2.1 = "response")) = some m →
      m.2 = .obj rmembers →
      rmembers.find? (fun m2 => decide (m2.1 = "results")) = some mr →
      (guardian_search_json keyword outcome).1 = mr.2) := by
  refine ⟨?_, ?_, ?_, ?_, ?_, ?_⟩
  · intro e h
    subst h
    rfl
  · intro data h hobj
    subst h
    simp [guardian_search_json, dictGet_not_obj hobj]
  · intro members h hf
    subst h
    simp [guardian_search_json, dictGet, hf]
  · intro members m h hf hobj
    subst h
    have houter : dictGet (.obj members) "response" (.obj []) = .ok m.2 := by
      simp [dictGet, hf]
    simp [guardian_search_json, houter, dictGet_not_obj hobj]
  · intro members rmembers m h hf hm hf2
    subst h
    have houter : dictGet (.obj members) "response" (.obj []) = .ok m.2 := by
      simp [dictGet, hf]
    have hinner : dictGet m.2 "results" (.arr []) = .ok (.arr []) := by
      rw [hm]
      simp [dictGet, hf2]
    simp [guardian_search_json, houter, hinner]
  · intro members rmembers m mr h hf hm hf2
    subst h
    have houter : dictGet (.obj members) "response" (.obj []) = .ok m.2 := by
      simp [dictGet, hf]
    have hinner : dictGet m.2 "results" (.arr []) = .ok mr.2 := by
      rw [hm]
      simp [dictGet, hf2]
    simp [guardian_search_json, houter, hinner]

/-- Witness for C8 (amended) at concrete inputs. -/
theorem guardian_search_json_total_witness :
    guardian_search_json "k" (.raised "boom")
      = (.arr [], [⟨.error, guardianErrorText "k" "boom"⟩])
  ∧ (guardian_search_json "k" (.ok (.obj []))).1 = .arr []
  ∧ (guardian_search_json "k" (.ok (.str "nope"))).1 = .arr [] :=
  ⟨(guardian_search_json_total "k" (.raised "boom")).1 "boom" rfl,
   (guardian_search_json_total "k" (.ok (.obj []))).2.2.1 [] rfl rfl,
   (guardian_search_json_total "k" (.ok (.str "nope"))).2.1 (.str "nope") rfl rfl⟩

end NewsAgent
